import Mathlib

/-!
Shallow embedding of the authorization / resource-ownership core of the
REST API repository (src/auth.ts, src/posts.ts, src/comments.ts,
src/users.ts, src/app.ts).  Database tables are lists of records; each
Express handler becomes a pure function from the database and the
request-scoped data to a response together with the successor database.
-/

namespace Api

/-- The `UserRole` enum of the Prisma schema (`enum UserRole { user admin }`). -/
inductive Role where
  | user
  | admin
deriving DecidableEq, Repr

/-- A row of the `User` table (the columns the handlers consult). -/
structure UserRec where
  id : String
  email : String
  password : String
  firstName : String
  lastName : String
  country : String
  role : Role
deriving DecidableEq, Repr

/-- A row of the `Post` table. -/
structure Post where
  id : String
  title : String
  content : String
  userId : String
deriving DecidableEq, Repr

/-- A row of the `Comment` table. -/
structure Comment where
  id : String
  content : String
  postId : String
  userId : String
deriving DecidableEq, Repr

/-- The database state: the three tables the handlers touch. -/
structure DB where
  users : List UserRec
  posts : List Post
  comments : List Comment
deriving DecidableEq, Repr

/-- The request-scoped identity that `authenticate` attaches as `req.user`:
`{ id, email, role }`. -/
structure Identity where
  id : String
  email : String
  role : Role
deriving DecidableEq, Repr

/-- A response sent directly by a handler: either
`res.status(s).json(body)` on success or `res.status(s).json(error)`. -/
inductive Reply (α : Type) where
  | success (status : Nat) (body : α)
  | failure (status : Nat) (message : String)
deriving DecidableEq, Repr

/-- The body accepted by `updatePostSchema`: optional `title` and
`content`; no other key exists in the schema, so no other column can be
written by `postHandlers.update`. -/
structure PostUpdates where
  title : Option String
  content : Option String
deriving DecidableEq, Repr

/-- Effect of `prisma.post.update({ data: updates })`: a column is
overwritten when the corresponding field is present and kept otherwise;
`id` and `userId` are not part of the update data. -/
def applyPostUpdates (u : PostUpdates) (p : Post) : Post :=
  { p with
    title := u.title.getD p.title
    content := u.content.getD p.content }

/-- Operations appearing in the `prisma` calls of the delete handlers. -/
inductive DbOp where
  | deleteCommentsByPostId (postId : String)
  | deletePostById (id : String)
  | deleteCommentsByUserId (userId : String)
  | deletePostsByUserId (userId : String)
  | deleteUserById (id : String)
deriving DecidableEq, Repr

/-- Effect of one operation on the database. -/
def applyOp (db : DB) : DbOp → DB
  | .deleteCommentsByPostId pid =>
      { db with comments := db.comments.filter (fun c => !(c.postId == pid)) }
  | .deletePostById i =>
      { db with posts := db.posts.filter (fun p => !(p.id == i)) }
  | .deleteCommentsByUserId uid =>
      { db with comments := db.comments.filter (fun c => !(c.userId == uid)) }
  | .deletePostsByUserId uid =>
      { db with posts := db.posts.filter (fun p => !(p.userId == uid)) }
  | .deleteUserById i =>
      { db with users := db.users.filter (fun u => !(u.id == i)) }

/-- Semantics of `prisma.$transaction(ops)`, the external persistence
collaborator's contract as the spec states it: all-or-nothing.  `failAt =
some k` models a failure at the k-th operation; the transaction rolls
back and the database is unchanged.  `failAt = none` applies every
operation in order. -/
def runTransaction (db : DB) (ops : List DbOp) : Option Nat → DB
  | some _ => db
  | none => ops.foldl applyOp db

/-- `postHandlers.update` (src/posts.ts): parse the body, load the post
by id (404 when absent), deny with 403 unless the requester owns the
post or is an admin, otherwise write the update. -/
def postUpdate (db : DB) (me : Identity) (id : String) (u : PostUpdates) :
    Reply Post × DB :=
  match db.posts.find? (fun p => p.id == id) with
  | none => (.failure 404 "Post not found", db)
  | some post =>
    if post.userId ≠ me.id ∧ me.role ≠ .admin then
      (.failure 403 "Not authorized to update this post", db)
    else
      (.success 200 (applyPostUpdates u post),
       { db with posts := db.posts.map (fun p => if p.id = id then applyPostUpdates u p else p) })

/-- `postHandlers.delete` (src/posts.ts): load the post (404 when
absent), deny with 403 unless owner or admin, then delete the post and
its comments in one `prisma.$transaction`; a transaction failure
propagates through `next(error)` to the app error handler, which answers
500. -/
def postDelete (db : DB) (me : Identity) (id : String) (txFail : Option Nat) :
    Reply Unit × DB :=
  match db.posts.find? (fun p => p.id == id) with
  | none => (.failure 404 "Post not found", db)
  | some post =>
    if post.userId ≠ me.id ∧ me.role ≠ .admin then
      (.failure 403 "Not authorized to delete this post", db)
    else
      match txFail with
      | some _ => (.failure 500 "Internal server error", db)
      | none =>
        (.success 204 (),
         runTransaction db [.deleteCommentsByPostId id, .deletePostById id] none)

/-- `commentHandlers.update` (src/comments.ts): parse `content`, load
the comment (404 when absent), deny with 403 unless owner or admin,
otherwise overwrite only the `content` column. -/
def commentUpdate (db : DB) (me : Identity) (id : String) (newContent : String) :
    Reply Comment × DB :=
  match db.comments.find? (fun c => c.id == id) with
  | none => (.failure 404 "Comment not found", db)
  | some c =>
    if c.userId ≠ me.id ∧ me.role ≠ .admin then
      (.failure 403 "Not authorized", db)
    else
      (.success 200 { c with content := newContent },
       { db with comments :=
          db.comments.map (fun d => if d.id = id then { d with content := newContent } else d) })

/-- `commentHandlers.delete` (src/comments.ts): load the comment (404
when absent), deny with 403 unless owner or admin, otherwise delete it. -/
def commentDelete (db : DB) (me : Identity) (id : String) :
    Reply Unit × DB :=
  match db.comments.find? (fun c => c.id == id) with
  | none => (.failure 404 "Comment not found", db)
  | some c =>
    if c.userId ≠ me.id ∧ me.role ≠ .admin then
      (.failure 403 "Not authorized", db)
    else
      (.success 204 (),
       { db with comments := db.comments.filter (fun d => !(d.id == id)) })

/-- The authorization condition the post and comment handlers test: the
mutation proceeds when the requester owns the resource or has the admin
role (the code denies on `userId !== me.id && role !== "admin"`). -/
def ownerOrAdmin (me : Identity) (ownerId : String) : Prop :=
  ownerId = me.id ∨ me.role = .admin

instance (me : Identity) (ownerId : String) : Decidable (ownerOrAdmin me ownerId) := by
  unfold ownerOrAdmin; infer_instance

/-- Errors thrown (not sent directly) by the user handlers in
src/users.ts: a `CustomError(statusCode, message)`, the error the Prisma
client raises when `update`/`delete` targets a missing row, or a
simulated mid-transaction failure. -/
inductive HandlerError where
  | custom (statusCode : Nat) (message : String)
  | recordNotFound
  | txnFailed
deriving DecidableEq, Repr

/-- The status the app-level error handler (src/app.ts `errorHandler`)
assigns to a thrown error: a `CustomError` keeps its own status code;
every other error (including the Prisma missing-row error and a failed
transaction) falls through to the generic 500 branch. -/
def errorStatus : HandlerError → Nat
  | .custom sc _ => sc
  | .recordNotFound => 500
  | .txnFailed => 500

/-- Outcome of a throwing handler: either a response it sent itself or
an error it threw to the app-level error handler. -/
inductive ThrowingOutcome (α : Type) where
  | responded (status : Nat) (body : α)
  | threw (e : HandlerError)
deriving DecidableEq, Repr

/-- `userHandlers.updateUserRole` (src/users.ts): reject a self-role
change with `CustomError(400)`, then call `prisma.user.update` directly —
no prior load of the target, so a missing target id makes the Prisma
call throw and the error propagates to the app error handler. -/
def updateUserRole (db : DB) (me : Identity) (id : String) (newRole : Role) :
    ThrowingOutcome UserRec × DB :=
  if id = me.id then
    (.threw (.custom 400 "Cannot update your own role"), db)
  else
    match db.users.find? (fun u => u.id == id) with
    | none => (.threw .recordNotFound, db)
    | some u =>
      (.responded 200 { u with role := newRole },
       { db with users := db.users.map (fun v => if v.id = id then { v with role := newRole } else v) })

/-- `userHandlers.deleteUser` (src/users.ts): reject self-deletion with
`CustomError(400)`, then run one `prisma.$transaction` deleting the
user's comments, the user's posts and the user row; the `user.delete`
step throws when the row is absent, rolling the transaction back, and
the error propagates to the app error handler. -/
def deleteUser (db : DB) (me : Identity) (id : String) (txFail : Option Nat) :
    ThrowingOutcome Unit × DB :=
  if id = me.id then
    (.threw (.custom 400 "Cannot delete your own account"), db)
  else
    if (db.users.find? (fun u => u.id == id)).isNone then
      (.threw .recordNotFound, db)
    else
      match txFail with
      | some _ => (.threw .txnFailed, db)
      | none =>
        (.responded 204 (),
         runTransaction db
           [.deleteCommentsByUserId id, .deletePostsByUserId id, .deleteUserById id] none)

/-- The JWT payload the code signs: `{ userId, email, role }` plus the
expiry instant `expiresIn` turns into. -/
structure TokenPayload where
  userId : String
  email : String
  role : Role
  exp : Nat
deriving DecidableEq, Repr

/-- Modelled from the spec: the external `jsonwebtoken` collaborator
(§4.1 Token Service, a pure cryptographic operation over the secret).
A signed token couples the payload with the signing secret; a forged
token carries a different `sig`. -/
structure SignedToken where
  payload : TokenPayload
  sig : String
deriving DecidableEq, Repr

/-- Modelled from the spec: `jwt.sign(payload, secret)`. -/
def jwtSign (secret : String) (p : TokenPayload) : SignedToken :=
  ⟨p, secret⟩

/-- Result of `jwt.verify`: the payload, or one of the two failure
classes (`JsonWebTokenError` for a bad signature, `TokenExpiredError`
when the current time has reached the embedded expiry). -/
inductive VerifyResult where
  | valid (p : TokenPayload)
  | badSignature
  | expired
deriving DecidableEq, Repr

/-- Modelled from the spec: `jwt.verify(token, secret)` at time `now` —
fails on a signature mismatch, fails when `now` has reached the expiry,
and otherwise returns the embedded claims unchanged. -/
def jwtVerify (secret : String) (now : Nat) (t : SignedToken) : VerifyResult :=
  if t.sig ≠ secret then .badSignature
  else if t.payload.exp ≤ now then .expired
  else .valid t.payload

/-- Token issuance as `authHandlers.login` and `signup` perform it:
`jwt.sign({ userId: user.id, email: user.email, role: user.role },
secret, { expiresIn })` — the expiry is `now` plus the configured
time-to-live. -/
def issueToken (secret : String) (now ttl : Nat) (i : Identity) : SignedToken :=
  jwtSign secret { userId := i.id, email := i.email, role := i.role, exp := now + ttl }

/-- Result of the `authenticate` middleware: `next()` with `req.user`
attached, or a direct rejection response. -/
inductive AuthResult where
  | proceed (me : Identity)
  | reject (status : Nat) (message : String)
deriving DecidableEq, Repr

/-- The `authenticate` middleware (src/auth.ts): a missing bearer token
is answered 401 "Authentication required"; a token failing verification
is answered 401 "Invalid token" (in `jsonwebtoken`, `TokenExpiredError`
is a subclass of `JsonWebTokenError`, so the catch block covers both);
otherwise the current user row is re-resolved from the database by the
token's `userId` (401 "Invalid token" when the account no longer
exists) and `{ id, email, role }` from that row is attached. -/
def authenticate (secret : String) (now : Nat) (db : DB) (token : Option SignedToken) :
    AuthResult :=
  match token with
  | none => .reject 401 "Authentication required"
  | some t =>
    match jwtVerify secret now t with
    | .badSignature => .reject 401 "Invalid token"
    | .expired => .reject 401 "Invalid token"
    | .valid p =>
      match db.users.find? (fun u => u.id == p.userId) with
      | none => .reject 401 "Invalid token"
      | some u => .proceed ⟨u.id, u.email, u.role⟩

/-- The raw signup request body: the five fields `signupSchema` declares
plus whatever `role` value the caller may have smuggled in. -/
structure SignupBody where
  email : String
  password : String
  firstName : String
  lastName : String
  country : String
  role : Option Role
deriving DecidableEq, Repr

/-- The value `signupSchema.parse` yields: a Zod object schema is
non-strict, so the unknown `role` key is stripped and only the five
declared fields survive. -/
structure SignupData where
  email : String
  password : String
  firstName : String
  lastName : String
  country : String
deriving DecidableEq, Repr

/-- Minimal model of the Zod email format check (the full check lives in
the external Zod collaborator); the length minima are the ones
`signupSchema` states. -/
def signupBodyValid (b : SignupBody) : Bool :=
  b.email.toList.contains '@' && b.password.length ≥ 8 && b.firstName.length ≥ 2 &&
    b.lastName.length ≥ 2 && b.country.length ≥ 2

/-- `signupSchema.parse(req.body)`: reject an invalid body, otherwise
keep exactly the five declared fields — the `role` key is discarded. -/
def parseSignup (b : SignupBody) : Option SignupData :=
  if signupBodyValid b then
    some ⟨b.email, b.password, b.firstName, b.lastName, b.country⟩
  else none

/-- The user record `authHandlers.signup` creates: the parsed fields,
the bcrypt hash, and `role: "user"` written after the spread of the
parsed data (which holds no role key in any case). -/
def mkSignupUser (newId hashed : String) (d : SignupData) : UserRec :=
  { id := newId, email := d.email, password := hashed,
    firstName := d.firstName, lastName := d.lastName,
    country := d.country, role := .user }

/-- `authHandlers.signup` (src/auth.ts): parse the body (400 on a Zod
error), reject a duplicate email with 400, then create the user record
and answer 201 with the record and a fresh token for it. -/
def signup (db : DB) (secret : String) (now ttl : Nat) (newId hashed : String)
    (b : SignupBody) : Reply (UserRec × SignedToken) × DB :=
  match parseSignup b with
  | none => (.failure 400 "Validation error", db)
  | some d =>
    if (db.users.find? (fun u => u.email == d.email)).isSome then
      (.failure 400 "Email already registered", db)
    else
      let u : UserRec := mkSignupUser newId hashed d
      (.success 201 (u, issueToken secret now ttl ⟨u.id, u.email, u.role⟩),
       { db with users := db.users ++ [u] })

/-- The API actions the routes expose for posts and comments. -/
inductive ApiAction where
  | listPosts
  | getPost
  | listCommentsByPost
  | createPost
  | updatePost
  | deletePost
  | createComment
  | updateComment
  | deleteComment
deriving DecidableEq, Repr

/-- Which actions mutate state. -/
def isMutating : ApiAction → Bool
  | .listPosts | .getPost | .listCommentsByPost => false
  | _ => true

/-- Result of the routing layer's gate stage: the request reaches the
handler (with the attached identity, or none when the route mounts no
gate) or is rejected by the gate. -/
inductive GateResult where
  | reachesHandler (me : Option Identity)
  | rejected (status : Nat) (message : String)
deriving DecidableEq, Repr

/-- Modelled from the spec: the route table (src/routes.ts is not among
the sources).  Per §4.2 and §8 — and the repository's tests, which
exercise `GET /api/posts` without a credential — read-only listing and
detail routes mount no `authenticate` middleware, while every mutating
route does. -/
def routeGate (a : ApiAction) (secret : String) (now : Nat) (db : DB)
    (token : Option SignedToken) : GateResult :=
  if isMutating a then
    match authenticate secret now db token with
    | .proceed me => .reachesHandler (some me)
    | .reject s m => .rejected s m
  else
    .reachesHandler none

/-- Fixture: a regular user owning the fixture post and one comment. -/
def aliceRec : UserRec := ⟨"u1", "alice@example.com", "hash1", "Alice", "Ander", "US", .user⟩

/-- Fixture: a second regular user, owner of nothing relevant. -/
def bobRec : UserRec := ⟨"u2", "bob@example.com", "hash2", "Bob", "Binder", "US", .user⟩

/-- Fixture: an admin account. -/
def adminRec : UserRec := ⟨"u9", "root@example.com", "hash9", "Ada", "Root", "N/A", .admin⟩

/-- Fixture: a post owned by alice. -/
def post1 : Post := ⟨"p1", "Title", "Body", "u1"⟩

/-- Fixture: a comment by alice on post p1. -/
def comment1 : Comment := ⟨"c1", "Nice", "p1", "u1"⟩

/-- Fixture: a comment by bob on post p1. -/
def comment2 : Comment := ⟨"c2", "Chat", "p1", "u2"⟩

/-- Fixture database holding the three users, one post and two comments. -/
def dbW : DB := ⟨[aliceRec, bobRec, adminRec], [post1], [comment1, comment2]⟩

/-- Fixture identity for alice. -/
def alice : Identity := ⟨"u1", "alice@example.com", .user⟩

/-- Fixture identity for bob. -/
def bob : Identity := ⟨"u2", "bob@example.com", .user⟩

/-- Fixture identity for the admin. -/
def rootAdmin : Identity := ⟨"u9", "root@example.com", .admin⟩

lemma ownerOrAdmin_iff (me : Identity) (o : String) :
    ownerOrAdmin me o ↔ ¬ (o ≠ me.id ∧ me.role ≠ .admin) := by
  unfold ownerOrAdmin; tauto

/-- C1: for every post or comment update/delete on an existing resource,
the mutation is permitted exactly when the requester has the admin role
or owns the resource (its `userId` equals the requester's id); in every
other case the handler answers 403 Forbidden and leaves the database
unchanged. -/
theorem c1_mutation_authorization
    (db : DB) (me : Identity) (pid cid : String) (u : PostUpdates) (nc : String)
    (txFail : Option Nat) (p : Post) (c : Comment)
    (hp : db.posts.find? (fun q => q.id == pid) = some p)
    (hc : db.comments.find? (fun q => q.id == cid) = some c) :
    ((ownerOrAdmin me p.userId →
        (postUpdate db me pid u).1 = .success 200 (applyPostUpdates u p) ∧
        (postDelete db me pid none).1 = .success 204 ()) ∧
     (¬ ownerOrAdmin me p.userId →
        postUpdate db me pid u = (.failure 403 "Not authorized to update this post", db) ∧
        postDelete db me pid txFail = (.failure 403 "Not authorized to delete this post", db))) ∧
    ((ownerOrAdmin me c.userId →
        (commentUpdate db me cid nc).1 = .success 200 { c with content := nc } ∧
        (commentDelete db me cid).1 = .success 204 ()) ∧
     (¬ ownerOrAdmin me c.userId →
        commentUpdate db me cid nc = (.failure 403 "Not authorized", db) ∧
        commentDelete db me cid = (.failure 403 "Not authorized", db))) := by
  refine ⟨⟨fun h => ?_, fun h => ?_⟩, ⟨fun h => ?_, fun h => ?_⟩⟩
  · rw [ownerOrAdmin_iff] at h
    constructor
    · simp only [postUpdate, hp]; rw [if_neg h]
    · simp only [postDelete, hp]; rw [if_neg h]
  · rw [ownerOrAdmin_iff, not_not] at h
    constructor
    · simp only [postUpdate, hp]; rw [if_pos h]
    · simp only [postDelete, hp]; rw [if_pos h]
  · rw [ownerOrAdmin_iff] at h
    constructor
    · simp only [commentUpdate, hc]; rw [if_neg h]
    · simp only [commentDelete, hc]; rw [if_neg h]
  · rw [ownerOrAdmin_iff, not_not] at h
    constructor
    · simp only [commentUpdate, hc]; rw [if_pos h]
    · simp only [commentDelete, hc]; rw [if_pos h]

/-- Witness for C1: bob, a non-owner non-admin, is denied with 403 on
every mutation of alice's post and comment, and the database is
untouched. -/
theorem c1_mutation_authorization_witness :
    postUpdate dbW bob "p1" ⟨some "New", none⟩ =
      (.failure 403 "Not authorized to update this post", dbW) ∧
    postDelete dbW bob "p1" none =
      (.failure 403 "Not authorized to delete this post", dbW) ∧
    commentUpdate dbW bob "c1" "x" = (.failure 403 "Not authorized", dbW) ∧
    commentDelete dbW bob "c1" = (.failure 403 "Not authorized", dbW) := by
  have h := c1_mutation_authorization dbW bob "p1" "c1" ⟨some "New", none⟩ "x" none
    post1 comment1 (by decide) (by decide)
  have hnp : ¬ ownerOrAdmin bob post1.userId := by decide
  have hnc : ¬ ownerOrAdmin bob comment1.userId := by decide
  exact ⟨(h.1.2 hnp).1, (h.1.2 hnp).2, (h.2.2 hnc).1, (h.2.2 hnc).2⟩

/-- C2: via the admin user-management handlers, every identity —
whatever its role — is rejected when it targets its own account for a
role change or a deletion, with `CustomError(400)` thrown before any
mutation, so the database is unchanged. -/
theorem c2_self_mutation_guard (db : DB) (me : Identity) (r : Role) (txFail : Option Nat) :
    updateUserRole db me me.id r =
      (.threw (.custom 400 "Cannot update your own role"), db) ∧
    deleteUser db me me.id txFail =
      (.threw (.custom 400 "Cannot delete your own account"), db) := by
  constructor <;> simp [updateUserRole, deleteUser]

/-- C3: when the target id of a post or comment update/delete does not
exist, the handler answers 404 NotFound — never 403 — for every
requesting identity, because the load-by-id check runs before the
authorization check; the database is unchanged. -/
theorem c3_notfound_precedence
    (db : DB) (me : Identity) (pid cid : String) (u : PostUpdates) (nc : String)
    (txFail : Option Nat)
    (hp : db.posts.find? (fun q => q.id == pid) = none)
    (hc : db.comments.find? (fun q => q.id == cid) = none) :
    postUpdate db me pid u = (.failure 404 "Post not found", db) ∧
    postDelete db me pid txFail = (.failure 404 "Post not found", db) ∧
    commentUpdate db me cid nc = (.failure 404 "Comment not found", db) ∧
    commentDelete db me cid = (.failure 404 "Comment not found", db) := by
  refine ⟨?_, ?_, ?_, ?_⟩ <;>
    simp [postUpdate, postDelete, commentUpdate, commentDelete, hp, hc]

/-- Witness for C3: even the admin receives 404 when the target id is
absent. -/
theorem c3_notfound_precedence_witness :
    postUpdate dbW rootAdmin "nope" ⟨none, none⟩ = (.failure 404 "Post not found", dbW) ∧
    postDelete dbW rootAdmin "nope" none = (.failure 404 "Post not found", dbW) ∧
    commentUpdate dbW rootAdmin "nope" "x" = (.failure 404 "Comment not found", dbW) ∧
    commentDelete dbW rootAdmin "nope" = (.failure 404 "Comment not found", dbW) :=
  c3_notfound_precedence dbW rootAdmin "nope" "nope" ⟨none, none⟩ "x" none
    (by decide) (by decide)

/-- C4 counterexample: the admin targets the non-existent user id
"ghost"; both user-management handlers throw the Prisma missing-row
error without having loaded the target, and the app error handler turns
it into 500 — not the 404 NotFound the claim requires. -/
theorem c4_user_handlers_counterexample :
    updateUserRole dbW rootAdmin "ghost" .admin = (.threw .recordNotFound, dbW) ∧
    deleteUser dbW rootAdmin "ghost" none = (.threw .recordNotFound, dbW) ∧
    errorStatus .recordNotFound = 500 := by
  refine ⟨by decide, by decide, rfl⟩

/-- C4 amended: the user-role update and user delete handlers do not
load the target before mutating; when the target id does not exist (and
the self-guard does not fire), the direct `prisma.user.update` /
`user.delete` call throws, the transaction (for delete) rolls back, and
the propagated error reaches the generic branch of the app error
handler, yielding 500 — not NotFound. -/
theorem c4_amended_user_handlers_no_load
    (db : DB) (me : Identity) (uid : String) (r : Role) (txFail : Option Nat)
    (hne : uid ≠ me.id)
    (habs : db.users.find? (fun v => v.id == uid) = none) :
    updateUserRole db me uid r = (.threw .recordNotFound, db) ∧
    deleteUser db me uid txFail = (.threw .recordNotFound, db) ∧
    errorStatus .recordNotFound = 500 ∧ errorStatus .recordNotFound ≠ 404 := by
  refine ⟨?_, ?_, rfl, by decide⟩
  · simp [updateUserRole, hne, habs]
  · simp [deleteUser, hne, habs]

/-- Witness for the amended C4 at a concrete absent target id. -/
theorem c4_amended_witness :
    updateUserRole dbW rootAdmin "ghost" .user = (.threw .recordNotFound, dbW) ∧
    deleteUser dbW rootAdmin "ghost" (some 1) = (.threw .recordNotFound, dbW) ∧
    errorStatus .recordNotFound = 500 ∧ errorStatus .recordNotFound ≠ 404 :=
  c4_amended_user_handlers_no_load dbW rootAdmin "ghost" .user (some 1)
    (by decide) (by decide)

/-- C5: an authorized delete of post `pid` removes the post and exactly
the comments whose `postId` equals `pid`, in one transaction; a failure
anywhere in the transaction leaves the database — post and comments —
exactly as it was, with the error surfacing as 500. -/
theorem c5_post_delete_cascade_atomic
    (db : DB) (me : Identity) (pid : String) (p : Post)
    (hp : db.posts.find? (fun q => q.id == pid) = some p)
    (hperm : ownerOrAdmin me p.userId) :
    postDelete db me pid none =
      (.success 204 (),
       { db with posts := db.posts.filter (fun q => !(q.id == pid)),
                 comments := db.comments.filter (fun c => !(c.postId == pid)) }) ∧
    (∀ k, postDelete db me pid (some k) = (.failure 500 "Internal server error", db)) := by
  rw [ownerOrAdmin_iff] at hperm
  constructor
  · simp only [postDelete, hp]; rw [if_neg hperm]
    simp [runTransaction, applyOp]
  · intro k; simp only [postDelete, hp]; rw [if_neg hperm]

/-- Witness for C5: alice deletes her post p1; the post and both of its
comments vanish together, while a simulated transaction failure leaves
the fixture database untouched. -/
theorem c5_post_delete_cascade_atomic_witness :
    postDelete dbW alice "p1" none =
      (.success 204 (),
       { dbW with posts := dbW.posts.filter (fun q => !(q.id == "p1")),
                  comments := dbW.comments.filter (fun c => !(c.postId == "p1")) }) ∧
    postDelete dbW alice "p1" (some 0) = (.failure 500 "Internal server error", dbW) := by
  have h := c5_post_delete_cascade_atomic dbW alice "p1" post1 (by decide) (by decide)
  exact ⟨h.1, h.2 0⟩

/-- C6 counterexample: on a request with no bearer credential the
`authenticate` middleware does not proceed with an anonymous identity —
it rejects immediately with 401 "Authentication required", whatever the
database or clock. -/
theorem c6_gate_counterexample :
    authenticate "secret-material-0123456789abcdef" 0 dbW none =
      .reject 401 "Authentication required" := rfl

/-- C6 amended: the `authenticate` middleware itself rejects every
credential-less request with 401; anonymous read-only listing/detail
actions succeed because their routes mount no gate at all, and every
mutating route mounts the gate, so a mutation without a credential is
rejected with 401 AuthenticationRequired. -/
theorem c6_amended_anonymous_access
    (a : ApiAction) (secret : String) (now : Nat) (db : DB) :
    (isMutating a = true →
      routeGate a secret now db none = .rejected 401 "Authentication required") ∧
    (isMutating a = false → routeGate a secret now db none = .reachesHandler none) := by
  cases a <;> simp [routeGate, isMutating, authenticate]

/-- Witness for the amended C6: creating a post without a credential is
rejected with 401 while listing posts without a credential reaches the
handler anonymously. -/
theorem c6_amended_witness :
    routeGate .createPost "s" 0 dbW none = .rejected 401 "Authentication required" ∧
    routeGate .listPosts "s" 0 dbW none = .reachesHandler none :=
  ⟨(c6_amended_anonymous_access .createPost "s" 0 dbW).1 rfl,
   (c6_amended_anonymous_access .listPosts "s" 0 dbW).2 rfl⟩

/-- C7: verifying, at any time strictly before the embedded expiry, a
token issued for an identity succeeds and returns exactly the same
`{ id, email, role }` claims. -/
theorem c7_token_roundtrip (secret : String) (now ttl tv : Nat) (i : Identity)
    (ht : tv < now + ttl) :
    jwtVerify secret tv (issueToken secret now ttl i) =
      .valid ⟨i.id, i.email, i.role, now + ttl⟩ := by
  simp [jwtVerify, issueToken, jwtSign, Nat.not_le.mpr ht]

/-- Witness for C7: alice's token, issued at time 0 with a ttl of 10,
verifies at time 9 and reproduces her id, email and role. -/
theorem c7_token_roundtrip_witness :
    jwtVerify "s" 9 (issueToken "s" 0 10 alice) =
      .valid ⟨alice.id, alice.email, alice.role, 0 + 10⟩ :=
  c7_token_roundtrip "s" 0 10 9 alice (by decide)

lemma post_pairs_preserved (l : List Post) (pid : String) (u : PostUpdates) :
    (l.map (fun q => if q.id = pid then applyPostUpdates u q else q)).map
        (fun q => (q.id, q.userId)) =
      l.map (fun q => (q.id, q.userId)) := by
  induction l with
  | nil => rfl
  | cons a t ih =>
      simp only [List.map_cons, ih]
      by_cases h : a.id = pid <;> simp [h, applyPostUpdates]

lemma comment_pairs_preserved (l : List Comment) (cid nc : String) :
    (l.map (fun d => if d.id = cid then { d with content := nc } else d)).map
        (fun d => (d.id, d.userId)) =
      l.map (fun d => (d.id, d.userId)) := by
  induction l with
  | nil => rfl
  | cons a t ih =>
      simp only [List.map_cons, ih]
      by_cases h : a.id = cid <;> simp [h]

/-- C8: an accepted post or comment update leaves the owner column
untouched — the response body carries the original `userId`, and across
the whole stored table every row keeps its `(id, userId)` pair. -/
theorem c8_ownership_immutable
    (db : DB) (me : Identity) (pid cid : String) (u : PostUpdates) (nc : String)
    (p : Post) (c : Comment)
    (hp : db.posts.find? (fun q => q.id == pid) = some p)
    (hc : db.comments.find? (fun q => q.id == cid) = some c)
    (hap : ownerOrAdmin me p.userId) (hac : ownerOrAdmin me c.userId) :
    ((postUpdate db me pid u).1 = .success 200 (applyPostUpdates u p) ∧
     (applyPostUpdates u p).userId = p.userId ∧
     ((postUpdate db me pid u).2).posts.map (fun q => (q.id, q.userId)) =
       db.posts.map (fun q => (q.id, q.userId))) ∧
    ((commentUpdate db me cid nc).1 = .success 200 { c with content := nc } ∧
     ({ c with content := nc } : Comment).userId = c.userId ∧
     ((commentUpdate db me cid nc).2).comments.map (fun d => (d.id, d.userId)) =
       db.comments.map (fun d => (d.id, d.userId))) := by
  rw [ownerOrAdmin_iff] at hap hac
  refine ⟨⟨?_, rfl, ?_⟩, ⟨?_, rfl, ?_⟩⟩
  · simp only [postUpdate, hp]; rw [if_neg hap]
  · simp only [postUpdate, hp]; rw [if_neg hap]
    exact post_pairs_preserved db.posts pid u
  · simp only [commentUpdate, hc]; rw [if_neg hac]
  · simp only [commentUpdate, hc]; rw [if_neg hac]
    exact comment_pairs_preserved db.comments cid nc

/-- Witness for C8: alice updates her own post and comment; the stored
`(id, userId)` pairs are unchanged. -/
theorem c8_ownership_immutable_witness :
    ((postUpdate dbW alice "p1" ⟨some "New", none⟩).1 =
       .success 200 (applyPostUpdates ⟨some "New", none⟩ post1) ∧
     (applyPostUpdates ⟨some "New", none⟩ post1).userId = post1.userId ∧
     ((postUpdate dbW alice "p1" ⟨some "New", none⟩).2).posts.map
         (fun q => (q.id, q.userId)) =
       dbW.posts.map (fun q => (q.id, q.userId))) ∧
    ((commentUpdate dbW alice "c1" "edited").1 =
       .success 200 { comment1 with content := "edited" } ∧
     ({ comment1 with content := "edited" } : Comment).userId = comment1.userId ∧
     ((commentUpdate dbW alice "c1" "edited").2).comments.map
         (fun d => (d.id, d.userId)) =
       dbW.comments.map (fun d => (d.id, d.userId))) :=
  c8_ownership_immutable dbW alice "p1" "c1" ⟨some "New", none⟩ "edited"
    post1 comment1 (by decide) (by decide) (by decide) (by decide)

lemma signup_shape (db : DB) (secret : String) (now ttl : Nat) (newId hashed : String)
    (b : SignupBody) :
    (∃ st msg, signup db secret now ttl newId hashed b = (.failure st msg, db)) ∨
    (∃ d, signup db secret now ttl newId hashed b =
      (.success 201
        (mkSignupUser newId hashed d,
         issueToken secret now ttl
           ⟨(mkSignupUser newId hashed d).id, (mkSignupUser newId hashed d).email,
            (mkSignupUser newId hashed d).role⟩),
       { db with users := db.users ++ [mkSignupUser newId hashed d] })) := by
  unfold signup
  split
  · exact Or.inl ⟨_, _, rfl⟩
  · split
    · exact Or.inl ⟨_, _, rfl⟩
    · exact Or.inr ⟨_, rfl⟩

/-- C9: whenever the public signup succeeds it creates the new record
with role `user`, whatever the request body carried — the schema strips
any `role` key and the handler writes `role: "user"` — and the rest of
the user table is untouched. -/
theorem c9_signup_never_admin
    (db : DB) (secret : String) (now ttl : Nat) (newId hashed : String)
    (b : SignupBody) (u : UserRec) (tok : SignedToken)
    (h : (signup db secret now ttl newId hashed b).1 = .success 201 (u, tok)) :
    u.role = .user ∧ (signup db secret now ttl newId hashed b).2.users = db.users ++ [u] := by
  rcases signup_shape db secret now ttl newId hashed b with ⟨st, msg, heq⟩ | ⟨d, heq⟩
  · rw [heq] at h; exact absurd h (by simp)
  · rw [heq] at h ⊢
    simp only [Reply.success.injEq, Prod.mk.injEq] at h
    obtain ⟨-, hu, -⟩ := h
    subst hu
    exact ⟨rfl, rfl⟩

/-- Witness for C9: a signup body that tries to smuggle `role: admin`
still yields a record with role `user`. -/
theorem c9_signup_never_admin_witness :
    (signup dbW "s" 0 10 "u3" "hash3"
        ⟨"carol@example.com", "passw0rd", "Carol", "Cander", "US", some .admin⟩).1 =
      .success 201
        (⟨"u3", "carol@example.com", "hash3", "Carol", "Cander", "US", .user⟩,
         issueToken "s" 0 10 ⟨"u3", "carol@example.com", .user⟩) ∧
    (⟨"u3", "carol@example.com", "hash3", "Carol", "Cander", "US", .user⟩ : UserRec).role
        = .user ∧
    (signup dbW "s" 0 10 "u3" "hash3"
        ⟨"carol@example.com", "passw0rd", "Carol", "Cander", "US", some .admin⟩).2.users =
      dbW.users ++ [⟨"u3", "carol@example.com", "hash3", "Carol", "Cander", "US", .user⟩] := by
  have hs : (signup dbW "s" 0 10 "u3" "hash3"
      ⟨"carol@example.com", "passw0rd", "Carol", "Cander", "US", some .admin⟩).1 =
      .success 201
        (⟨"u3", "carol@example.com", "hash3", "Carol", "Cander", "US", .user⟩,
         issueToken "s" 0 10 ⟨"u3", "carol@example.com", .user⟩) := by decide
  have h := c9_signup_never_admin dbW "s" 0 10 "u3" "hash3"
    ⟨"carol@example.com", "passw0rd", "Carol", "Cander", "US", some .admin⟩
    ⟨"u3", "carol@example.com", "hash3", "Carol", "Cander", "US", .user⟩
    (issueToken "s" 0 10 ⟨"u3", "carol@example.com", .user⟩) hs
  exact ⟨hs, h.1, h.2⟩

/-- C10: an admin-initiated delete of another user removes, in one
transaction, every comment and every post whose `userId` is the target
and the user row itself; a failure anywhere in the transaction leaves
all three tables exactly as they were. -/
theorem c10_user_delete_atomic
    (db : DB) (me : Identity) (uid : String) (u0 : UserRec)
    (_hadmin : me.role = .admin)
    (hne : uid ≠ me.id)
    (hu : db.users.find? (fun v => v.id == uid) = some u0) :
    deleteUser db me uid none =
      (.responded 204 (),
       ⟨db.users.filter (fun v => !(v.id == uid)),
        db.posts.filter (fun q => !(q.userId == uid)),
        db.comments.filter (fun c => !(c.userId == uid))⟩) ∧
    (∀ k, deleteUser db me uid (some k) = (.threw .txnFailed, db)) := by
  have hsome : (db.users.find? (fun v => v.id == uid)).isNone = false := by
    rw [hu]; rfl
  constructor
  · simp [deleteUser, hne, hsome, runTransaction, applyOp]
  · intro k; simp [deleteUser, hne, hsome]

/-- Witness for C10: the admin deletes alice; her account, her post and
her comment vanish together, and a simulated failure leaves the fixture
database untouched. -/
theorem c10_user_delete_atomic_witness :
    deleteUser dbW rootAdmin "u1" none =
      (.responded 204 (),
       ⟨dbW.users.filter (fun v => !(v.id == "u1")),
        dbW.posts.filter (fun q => !(q.userId == "u1")),
        dbW.comments.filter (fun c => !(c.userId == "u1"))⟩) ∧
    deleteUser dbW rootAdmin "u1" (some 2) = (.threw .txnFailed, dbW) := by
  have h := c10_user_delete_atomic dbW rootAdmin "u1" aliceRec rfl (by decide) (by decide)
  exact ⟨h.1, h.2 2⟩

end Api
